import Mathlib

/-!
Shallow embedding of the authentication and authorization core of the
hospital-management backend (src/main.py), together with proofs of the
specification's claims about it.

Modelling conventions:
* MongoDB collections (`user_auth`, `token`) are lists of records;
  `insert_one` appends, `find_one` returns the first record matching the
  filter in insertion order.
* Wall-clock time is an explicit `now : Nat` parameter (seconds).
* Randomness (`secrets.token_urlsafe`, store-generated object ids) is an
  explicit oracle parameter: the caller supplies the generated string.
* Python exceptions (`HTTPException`) become the error side of `Except`.
* `hashlib.sha256(...).hexdigest()` is modelled by a full executable
  SHA-256 (FIPS 180-4) over the UTF-8 bytes of the input string.
-/

/-- 32-bit truncation: arithmetic in SHA-256 is modulo 2^32. -/
def w32 (n : Nat) : Nat := n % 4294967296

/-- 64-bit truncation, for the message-length field of SHA-256 padding. -/
def w64 (n : Nat) : Nat := n % 18446744073709551616

/-- Right rotation of a 32-bit word by `b` positions. -/
def rotr (b n : Nat) : Nat := w32 ((n >>> b) ||| (n <<< (32 - b)))

/-- Bitwise complement within 32 bits. -/
def not32 (n : Nat) : Nat := n ^^^ 4294967295

/-- SHA-256 small sigma 0. -/
def ssig0 (x : Nat) : Nat := (rotr 7 x) ^^^ (rotr 18 x) ^^^ (x >>> 3)

/-- SHA-256 small sigma 1. -/
def ssig1 (x : Nat) : Nat := (rotr 17 x) ^^^ (rotr 19 x) ^^^ (x >>> 10)

/-- SHA-256 big sigma 0. -/
def bsig0 (x : Nat) : Nat := (rotr 2 x) ^^^ (rotr 13 x) ^^^ (rotr 22 x)

/-- SHA-256 big sigma 1. -/
def bsig1 (x : Nat) : Nat := (rotr 6 x) ^^^ (rotr 11 x) ^^^ (rotr 25 x)

/-- The 64 SHA-256 round constants (FIPS 180-4, in decimal). -/
def shaK : List Nat :=
  [1116352408, 1899447441, 3049323471, 3921009573, 961987163, 1508970993,
   2453635748, 2870763221, 3624381080, 310598401, 607225278, 1426881987,
   1925078388, 2162078206, 2614888103, 3248222580, 3835390401, 4022224774,
   264347078, 604807628, 770255983, 1249150122, 1555081692, 1996064986,
   2554220882, 2821834349, 2952996808, 3210313671, 3336571891, 3584528711,
   113926993, 338241895, 666307205, 773529912, 1294757372, 1396182291,
   1695183700, 1986661051, 2177026350, 2456956037, 2730485921, 2820302411,
   3259730800, 3345764771, 3516065817, 3600352804, 4094571909, 275423344,
   430227734, 506948616, 659060556, 883997877, 958139571, 1322822218,
   1537002063, 1747873779, 1955562222, 2024104815, 2227730452, 2361852424,
   2428436474, 2756734187, 3204031479, 3329325298]

/-- The SHA-256 initial hash value (FIPS 180-4, in decimal). -/
def shaH0 : List Nat :=
  [1779033703, 3144134277, 1013904242, 2773480762, 1359893119, 2600822924,
   528734635, 1541459225]

/-- Extend a 16-word message block by `n` further schedule words. -/
def extendSched (ws : List Nat) : Nat → List Nat
  | 0 => ws
  | n + 1 =>
    let prev := extendSched ws n
    let len := prev.length
    prev ++ [w32 (ssig1 (prev.getD (len - 2) 0) + prev.getD (len - 7) 0 +
                  ssig0 (prev.getD (len - 15) 0) + prev.getD (len - 16) 0)]

/-- One SHA-256 compression round on the eight working registers. -/
def shaRound (regs : List Nat) (kw : Nat × Nat) : List Nat :=
  match regs with
  | [a, b, c, d, e, f, g, h] =>
    let t1 := w32 (h + bsig1 e + ((e &&& f) ^^^ (not32 e &&& g)) + kw.1 + kw.2)
    let t2 := w32 (bsig0 a + ((a &&& b) ^^^ (a &&& c) ^^^ (b &&& c)))
    [w32 (t1 + t2), a, b, c, w32 (d + t1), e, f, g]
  | other => other

/-- Compress one 16-word block into the running hash state. -/
def compressBlock (h : List Nat) (block : List Nat) : List Nat :=
  let ws := extendSched block 48
  let regs := (shaK.zip ws).foldl shaRound h
  List.zipWith (fun x y => w32 (x + y)) h regs

/-- Big-endian 8-byte encoding of the 64-bit message bit length. -/
def lenBytes (n : Nat) : List Nat :=
  [(w64 n >>> 56) % 256, (w64 n >>> 48) % 256, (w64 n >>> 40) % 256, (w64 n >>> 32) % 256,
   (w64 n >>> 24) % 256, (w64 n >>> 16) % 256, (w64 n >>> 8) % 256, w64 n % 256]

/-- SHA-256 padding: append 0x80, zero bytes to 56 mod 64, then the bit length. -/
def shaPad (msg : List Nat) : List Nat :=
  msg ++ [128] ++ List.replicate ((119 - msg.length % 64) % 64) 0 ++ lenBytes (8 * msg.length)

/-- Split a byte list into chunks of `k` bytes (fuel-indexed for structural recursion). -/
def chunksAux (k : Nat) : Nat → List Nat → List (List Nat)
  | 0, _ => []
  | _, [] => []
  | fuel + 1, l => l.take k :: chunksAux k fuel (l.drop k)

/-- Split a byte list into chunks of `k` bytes. -/
def chunks (k : Nat) (l : List Nat) : List (List Nat) := chunksAux k l.length l

/-- Combine four big-endian bytes into a 32-bit word. -/
def word4 (l : List Nat) : Nat :=
  (l.getD 0 0 <<< 24) + (l.getD 1 0 <<< 16) + (l.getD 2 0 <<< 8) + l.getD 3 0

/-- SHA-256 of a byte list: the eight 32-bit words of the digest. -/
def sha256Words (msg : List Nat) : List Nat :=
  ((chunks 64 (shaPad msg)).map (fun b => (chunks 4 b).map word4)).foldl compressBlock shaH0

/-- Lowercase hexadecimal digit for a nibble. -/
def hexChar (n : Nat) : Char :=
  match n with
  | 0 => '0' | 1 => '1' | 2 => '2' | 3 => '3' | 4 => '4' | 5 => '5' | 6 => '6' | 7 => '7'
  | 8 => '8' | 9 => '9' | 10 => 'a' | 11 => 'b' | 12 => 'c' | 13 => 'd' | 14 => 'e' | _ => 'f'

/-- The eight lowercase hex characters of one 32-bit word, most significant first. -/
def wordHex (w : Nat) : List Char :=
  [hexChar ((w >>> 28) % 16), hexChar ((w >>> 24) % 16), hexChar ((w >>> 20) % 16),
   hexChar ((w >>> 16) % 16), hexChar ((w >>> 12) % 16), hexChar ((w >>> 8) % 16),
   hexChar ((w >>> 4) % 16), hexChar (w % 16)]

/-- `hashlib.sha256(bytes).hexdigest()`: the 64-character lowercase hex digest. -/
def sha256Hex (msg : List Nat) : String := String.mk ((sha256Words msg).map wordHex).flatten

/-- UTF-8 encoding of one character (RFC 3629). -/
def utf8Char (c : Char) : List Nat :=
  let n := c.toNat
  if n < 128 then [n]
  else if n < 2048 then [192 + n / 64, 128 + n % 64]
  else if n < 65536 then [224 + n / 4096, 128 + (n / 64) % 64, 128 + n % 64]
  else [240 + n / 262144, 128 + (n / 4096) % 64, 128 + (n / 64) % 64, 128 + n % 64]

/-- `s.encode("utf-8")` as a byte list. -/
def utf8Bytes (s : String) : List Nat := (s.data.map utf8Char).flatten

/-- src/main.py `hash_password`: SHA-256 hex digest of the UTF-8 password. -/
def hash_password (password : String) : String := sha256Hex (utf8Bytes password)

/-- src/main.py `verify_password`: recompute the digest and compare. -/
def verify_password (password : String) (hashed : String) : Bool :=
  hash_password password == hashed

deriving instance DecidableEq for Except

/-- A document of the `token` collection, as written by `create_token`.
`expires_at` is `Option` because `get_user_from_token` guards the expiry
comparison with a truthiness check on `tok.get("expires_at")`. -/
structure TokenDoc where
  token : String
  user_id : String
  role : String
  expires_at : Option Nat
  created_at : Nat
deriving DecidableEq

/-- A document of the `user_auth` collection, as written by `signup`.
`password_hash` and `is_active` are `Option` because `login` and
`get_user_from_token` read them with `.get` defaults. -/
structure UserAuthDoc where
  mongoId : String
  name : String
  email : String
  role : String
  password_hash : Option String
  is_active : Option Bool
  created_at : Nat
  updated_at : Nat
deriving DecidableEq

/-- The normalized identity view returned by `get_user_from_token`. -/
structure UserOut where
  id : String
  name : String
  email : String
  role : String
  is_active : Bool
deriving DecidableEq

/-- A FastAPI `HTTPException`: status code and detail message. -/
structure HTTPException where
  status_code : Nat
  detail : String
deriving DecidableEq

/-- src/main.py `AuthResponse`. -/
structure AuthResponse where
  token : String
  role : String
  name : String
  email : String
deriving DecidableEq

/-- src/main.py `SignupRequest`.  The request schema restricts `role` to
the literals admin, doctor, receptionist, patient; the handlers treat it
as a plain string, so it is modelled as `String`. -/
structure SignupRequest where
  name : String
  email : String
  password : String
  role : String
deriving DecidableEq

/-- src/main.py `LoginRequest`. -/
structure LoginRequest where
  email : String
  password : String
deriving DecidableEq

/-- The uppercase-to-lowercase table for the ASCII letters. -/
def upperLower : List (Char × Char) :=
  [('A', 'a'), ('B', 'b'), ('C', 'c'), ('D', 'd'), ('E', 'e'), ('F', 'f'), ('G', 'g'),
   ('H', 'h'), ('I', 'i'), ('J', 'j'), ('K', 'k'), ('L', 'l'), ('M', 'm'), ('N', 'n'),
   ('O', 'o'), ('P', 'p'), ('Q', 'q'), ('R', 'r'), ('S', 's'), ('T', 't'), ('U', 'u'),
   ('V', 'v'), ('W', 'w'), ('X', 'x'), ('Y', 'y'), ('Z', 'z')]

/-- Python `str.lower()` on one character (ASCII range; the emails and
schemes this system compares are ASCII). -/
def lowerChar (c : Char) : Char :=
  ((upperLower.find? (fun p => p.1 == c)).map Prod.snd).getD c

/-- Python `s.lower()`: lowercase every character. -/
def pyLower (s : String) : String := String.mk (s.data.map lowerChar)

/-- Whitespace characters for Python `str.split()` with no separator
(ASCII: space, tab, newline, carriage return, vertical tab, form feed). -/
def isPyWs (c : Char) : Bool :=
  c = ' ' ∨ c = '\t' ∨ c = '\n' ∨ c = '\r' ∨ c = '\x0b' ∨ c = '\x0c'

/-- Worker for `pySplit`: scan the characters, accumulating the current
word in reverse; whitespace ends a word, empty runs produce no word. -/
def pySplitAux : List Char → List Char → List (List Char)
  | [], acc => if acc = [] then [] else [acc.reverse]
  | c :: cs, acc =>
    if isPyWs c then
      if acc = [] then pySplitAux cs [] else acc.reverse :: pySplitAux cs []
    else pySplitAux cs (c :: acc)

/-- Python `s.split()`: split on runs of whitespace, no empty parts. -/
def pySplit (s : String) : List String := (pySplitAux s.data []).map String.mk

/-- `find_one` on a collection: the first document matching the filter,
in insertion order. -/
def findOne {α : Type} (coll : List α) (filt : α → Bool) : Option α := coll.find? filt

/-- src/main.py `create_token`: persist a new token document whose expiry
is seven days (604800 seconds) from now, and return the token string.
The `secrets.token_urlsafe(32)` call is modelled by the oracle argument
`tokenStr`. -/
def create_token (user_id : String) (role : String) (tokens : List TokenDoc)
    (now : Nat) (tokenStr : String) : String × List TokenDoc :=
  (tokenStr, tokens ++ [⟨tokenStr, user_id, role, some (now + 604800), now⟩])

/-- src/main.py `get_user_from_token`: parse the Authorization header,
look up the token, check its expiry, and resolve the owning identity.
Python's `if not authorization` treats both a missing header and an empty
string as absent.  The second, textually identical `find_one` fallback of
the source collapses to the first lookup; the `ObjectId` fallback never
matches because every `mongoId` in this model is already the string form. -/
def get_user_from_token (authorization : Option String) (tokens : List TokenDoc)
    (users : List UserAuthDoc) (now : Nat) : Except HTTPException UserOut :=
  match authorization with
  | none => .error ⟨401, "Missing Authorization header"⟩
  | some auth =>
    if auth = "" then .error ⟨401, "Missing Authorization header"⟩
    else
      match pySplit auth with
      | [scheme, token] =>
        if pyLower scheme ≠ "bearer" then .error ⟨401, "Invalid Authorization header"⟩
        else
          match findOne tokens (fun t => t.token == token) with
          | none => .error ⟨401, "Invalid token"⟩
          | some tok =>
            if (match tok.expires_at with | some e => decide (e < now) | none => false) then
              .error ⟨401, "Token expired"⟩
            else
              match findOne users (fun u => u.mongoId == tok.user_id) with
              | none => .error ⟨401, "User not found for token"⟩
              | some user =>
                .ok ⟨user.mongoId, user.name, user.email, user.role, user.is_active.getD true⟩
      | _ => .error ⟨401, "Invalid Authorization header"⟩

/-- src/main.py `require_roles`: the dependency produced by
`require_roles(allowed)`, applied to the outcome of the inner
`get_user_from_token` dependency.  A resolution failure propagates; a
resolved identity whose role is not in `allowed` is rejected with 403. -/
def require_roles (allowed : List String) (user : Except HTTPException UserOut) :
    Except HTTPException UserOut :=
  match user with
  | .error e => .error e
  | .ok u => if (allowed.contains u.role) = false then .error ⟨403, "Forbidden for this role"⟩
             else .ok u

/-- src/main.py `signup`: reject an already-registered (lowercased) email,
otherwise insert the identity document and issue a token.  The store's
generated id and the random token string are the oracle arguments `newId`
and `newTok`. -/
def signup (payload : SignupRequest) (users : List UserAuthDoc) (tokens : List TokenDoc)
    (now : Nat) (newId : String) (newTok : String) :
    Except HTTPException AuthResponse × List UserAuthDoc × List TokenDoc :=
  match findOne users (fun u => u.email == pyLower payload.email) with
  | some _ => (.error ⟨400, "Email already registered"⟩, users, tokens)
  | none =>
    let user_doc : UserAuthDoc :=
      ⟨newId, payload.name, pyLower payload.email, payload.role,
       some (hash_password payload.password), some true, now, now⟩
    let res := create_token newId payload.role tokens now newTok
    (.ok ⟨res.1, payload.role, payload.name, payload.email⟩, users ++ [user_doc], res.2)

/-- src/main.py `login`: look up the identity by lowercased email, verify
the password against the stored digest (default empty string), reject
inactive accounts, then issue a token. -/
def login (payload : LoginRequest) (users : List UserAuthDoc) (tokens : List TokenDoc)
    (now : Nat) (newTok : String) :
    Except HTTPException AuthResponse × List TokenDoc :=
  match findOne users (fun u => u.email == pyLower payload.email) with
  | none => (.error ⟨401, "Invalid email or password"⟩, tokens)
  | some user =>
    if verify_password payload.password (user.password_hash.getD "") = false then
      (.error ⟨401, "Invalid email or password"⟩, tokens)
    else if (user.is_active.getD true) = false then
      (.error ⟨403, "User is inactive"⟩, tokens)
    else
      let res := create_token user.mongoId user.role tokens now newTok
      (.ok ⟨res.1, user.role, user.name, user.email⟩, res.2)

/-! ### Helper lemmas -/

theorem lowerChar_idem (c : Char) : lowerChar (lowerChar c) = lowerChar c := by
  unfold lowerChar
  cases hf : upperLower.find? (fun p => p.1 == c) with
  | none => simp [hf]
  | some p =>
    have hp : p ∈ upperLower := List.mem_of_find?_eq_some hf
    have key : ∀ q ∈ upperLower, upperLower.find? (fun r => r.1 == q.2) = none := by decide
    simp [hf, key p hp]

theorem pyLower_idem (s : String) : pyLower (pyLower s) = pyLower s := by
  unfold pyLower
  simp only [List.map_map]
  congr 1
  exact List.map_congr_left (fun c _ => lowerChar_idem c)

theorem pySplitAux_nonws (l : List Char) (acc : List Char)
    (h : ∀ c ∈ l, isPyWs c = false) (h2 : acc ≠ [] ∨ l ≠ []) :
    pySplitAux l acc = [acc.reverse ++ l] := by
  induction l generalizing acc with
  | nil =>
    rcases h2 with h2 | h2
    · simp [pySplitAux, h2]
    · exact absurd rfl h2
  | cons c cs ih =>
    have hc : isPyWs c = false := h c (List.mem_cons_self c cs)
    have hcs : ∀ x ∈ cs, isPyWs x = false := fun x hx => h x (List.mem_cons_of_mem c hx)
    simp only [pySplitAux, hc, Bool.false_eq_true, if_false]
    rw [ih (c :: acc) hcs (Or.inl (by simp))]
    simp

theorem string_ne_empty_iff (s : String) : s ≠ "" ↔ s.data ≠ [] := by
  constructor
  · intro h h2
    exact h (by cases s; simp_all)
  · intro h h2
    exact h (by rw [h2])

theorem pySplit_bearer (t : String) (h1 : t ≠ "") (h2 : ∀ c ∈ t.data, isPyWs c = false) :
    pySplit ("Bearer " ++ t) = ["Bearer", t] := by
  have hd : ("Bearer " ++ t).data = 'B' :: 'e' :: 'a' :: 'r' :: 'e' :: 'r' :: ' ' :: t.data := by
    cases t; rfl
  unfold pySplit
  rw [hd]
  simp only [pySplitAux, isPyWs]
  norm_num
  rw [pySplitAux_nonws t.data [] h2 (Or.inr ((string_ne_empty_iff t).mp h1))]
  simp

theorem shaRound_length (regs : List Nat) (kw : Nat × Nat) :
    (shaRound regs kw).length = regs.length := by
  unfold shaRound
  split <;> simp

theorem foldl_shaRound_length (l : List (Nat × Nat)) (regs : List Nat) :
    (l.foldl shaRound regs).length = regs.length := by
  induction l generalizing regs with
  | nil => rfl
  | cons p ps ih => rw [List.foldl_cons, ih, shaRound_length]

theorem compressBlock_length (h : List Nat) (block : List Nat) (hl : h.length = 8) :
    (compressBlock h block).length = 8 := by
  unfold compressBlock
  rw [List.length_zipWith, foldl_shaRound_length, hl]
  simp

theorem foldl_compressBlock_length (bs : List (List Nat)) (h : List Nat) (hl : h.length = 8) :
    (bs.foldl compressBlock h).length = 8 := by
  induction bs generalizing h with
  | nil => exact hl
  | cons b rest ih => exact ih _ (compressBlock_length h b hl)

theorem sha256Words_length (msg : List Nat) : (sha256Words msg).length = 8 := by
  unfold sha256Words
  exact foldl_compressBlock_length _ _ (by rfl)

theorem wordHex_length (w : Nat) : (wordHex w).length = 8 := by
  unfold wordHex
  simp

theorem hash_password_length (p : String) : (hash_password p).length = 64 := by
  show (String.mk ((sha256Words (utf8Bytes p)).map wordHex).flatten).length = 64
  show ((sha256Words (utf8Bytes p)).map wordHex).flatten.length = 64
  rw [List.length_flatten, List.map_map]
  have : (List.length ∘ wordHex) = fun _ => 8 := funext (fun w => wordHex_length w)
  rw [this, List.map_const', List.sum_replicate, sha256Words_length, smul_eq_mul]

theorem hash_password_ne_empty (p : String) : hash_password p ≠ "" := by
  intro h
  have h2 := hash_password_length p
  rw [h] at h2
  simp [String.length] at h2

set_option maxRecDepth 40000

/-! ### Claims -/

/-- C1 counterexample: at the instant the current time equals the expiry
timestamp, resolution succeeds and returns the identity, it does not fail
with the Token-expired error — refuting the claim that the token is
already invalid at that instant. -/
theorem c1_counterexample :
    get_user_from_token (some "Bearer t1")
        [⟨"t1", "u1", "admin", some 100, 0⟩]
        [⟨"u1", "Al", "a@x.com", "admin", some "h", some true, 0, 0⟩] 100
      = .ok ⟨"u1", "Al", "a@x.com", "admin", true⟩
    ∧ get_user_from_token (some "Bearer t1")
        [⟨"t1", "u1", "admin", some 100, 0⟩]
        [⟨"u1", "Al", "a@x.com", "admin", some "h", some true, 0, 0⟩] 100
      ≠ .error ⟨401, "Token expired"⟩ := by
  refine ⟨rfl, ?_⟩
  intro h
  exact Except.noConfusion h

/-- C7: the password hasher round-trips.  `hash_password` is a Lean
function, hence deterministic and pure; `verify_password p d` is true
exactly when `hash_password p = d`; a password always verifies against
its own digest; and verifying `p` against the digest of `p2` succeeds
exactly in the case of a hash coincidence `hash_password p =
hash_password p2` (so for digests that differ it fails). -/
theorem c7_hash_verify_roundtrip (p d p2 : String) :
    (verify_password p d = true ↔ hash_password p = d)
    ∧ verify_password p (hash_password p) = true
    ∧ (verify_password p (hash_password p2) = true ↔ hash_password p = hash_password p2) := by
  refine ⟨?_, ?_, ?_⟩ <;> simp [verify_password]

/-- C2: the gate produced by `require_roles` passes an identity through
unchanged exactly when its role string is a member of the allowed list,
fails with 403 Forbidden exactly when it is not, and never inspects
`is_active`: an inactive identity with an allowed role is accepted. -/
theorem c2_require_roles_gate (allowed : List String) (u : UserOut) :
    (require_roles allowed (.ok u) = .ok u ↔ u.role ∈ allowed)
    ∧ (require_roles allowed (.ok u) = .error ⟨403, "Forbidden for this role"⟩ ↔ u.role ∉ allowed)
    ∧ (u.is_active = false → u.role ∈ allowed →
        require_roles allowed (.ok u) = .ok u) := by
  unfold require_roles
  by_cases h : u.role ∈ allowed
  · simp [h, List.elem_eq_mem]
  · simp [h, List.elem_eq_mem]

/-- C2 witness: an inactive admin identity passes the admin gate. -/
theorem c2_require_roles_gate_witness :
    require_roles ["admin"] (.ok ⟨"u1", "Ann", "ann@x.com", "admin", false⟩)
      = .ok ⟨"u1", "Ann", "ann@x.com", "admin", false⟩ :=
  (c2_require_roles_gate ["admin"] ⟨"u1", "Ann", "ann@x.com", "admin", false⟩).2.2
    rfl (by decide)

/-- C5: a failed login writes nothing: whenever `login` returns an error
(unknown email, bad password, or inactive account), the token collection
is returned unchanged, so no SessionToken is persisted and no token is
issued. -/
theorem c5_failed_login_atomic (p : LoginRequest) (users : List UserAuthDoc)
    (tokens : List TokenDoc) (now : Nat) (newTok : String) (e : HTTPException)
    (h : (login p users tokens now newTok).1 = .error e) :
    (login p users tokens now newTok).2 = tokens := by
  unfold login at h ⊢
  cases hf : findOne users (fun u => u.email == pyLower p.email) with
  | none => simp [hf]
  | some user =>
    rw [hf] at h
    by_cases hv : verify_password p.password (user.password_hash.getD "") = false
    · simp [hv]
    · by_cases ha : (user.is_active.getD true) = false
      · simp [hv, ha]
      · simp [hv, ha] at h

/-- C5 witness: a login against an empty identity store fails and leaves
the (empty) token store unchanged. -/
theorem c5_failed_login_atomic_witness :
    (login ⟨"a@x.com", "pw"⟩ [] [] 0 "tk").2 = [] :=
  c5_failed_login_atomic ⟨"a@x.com", "pw"⟩ [] [] 0 "tk"
    ⟨401, "Invalid email or password"⟩ (by decide)

/-- C10: a stored identity record with no password-digest field can never
be logged into: the digest defaults to the empty string, and every
`hash_password` output has 64 characters, so verification fails and
`login` returns the invalid-credentials error with the token store
unchanged, for every supplied password. -/
theorem c10_missing_digest_login (p : LoginRequest) (users : List UserAuthDoc)
    (tokens : List TokenDoc) (now : Nat) (newTok : String) (u : UserAuthDoc)
    (hf : findOne users (fun d => d.email == pyLower p.email) = some u)
    (hd : u.password_hash = none) :
    login p users tokens now newTok = (.error ⟨401, "Invalid email or password"⟩, tokens) := by
  unfold login
  rw [hf]
  have hv : verify_password p.password (u.password_hash.getD "") = false := by
    rw [hd]
    simp only [Option.getD]
    unfold verify_password
    rw [beq_eq_false_iff_ne]
    exact hash_password_ne_empty p.password
  simp [hv]

/-- C10 witness: logging in as a digest-less record fails with
invalid-credentials. -/
theorem c10_missing_digest_login_witness :
    login ⟨"a@x.com", "guess"⟩ [⟨"u1", "Al", "a@x.com", "admin", none, some true, 0, 0⟩] [] 3 "tk"
      = (.error ⟨401, "Invalid email or password"⟩, []) :=
  c10_missing_digest_login ⟨"a@x.com", "guess"⟩
    [⟨"u1", "Al", "a@x.com", "admin", none, some true, 0, 0⟩] [] 3 "tk"
    ⟨"u1", "Al", "a@x.com", "admin", none, some true, 0, 0⟩ (by decide) rfl

/-- C4: login returns the identical error — same status code and same
detail message — for an unknown email and for a known email with a
mismatched password digest, so the failure does not reveal whether the
account exists. -/
theorem c4_login_error_indistinguishable (p1 p2 : LoginRequest) (users : List UserAuthDoc)
    (tokens : List TokenDoc) (now : Nat) (tk1 tk2 : String) (u : UserAuthDoc)
    (h1 : findOne users (fun d => d.email == pyLower p1.email) = none)
    (h2 : findOne users (fun d => d.email == pyLower p2.email) = some u)
    (h3 : verify_password p2.password (u.password_hash.getD "") = false) :
    (login p1 users tokens now tk1).1 = .error ⟨401, "Invalid email or password"⟩
    ∧ (login p2 users tokens now tk2).1 = .error ⟨401, "Invalid email or password"⟩
    ∧ (login p1 users tokens now tk1).1 = (login p2 users tokens now tk2).1 := by
  unfold login
  rw [h1, h2]
  simp [h3]

/-- C4 witness: a login with an unregistered email and a login with the
right email but the wrong password produce equal errors. -/
theorem c4_login_error_indistinguishable_witness :
    (login ⟨"nobody@x.com", "secret"⟩
        [⟨"u1", "Bob", "bob@x.com", "patient", some (hash_password "secret"), some true, 0, 0⟩]
        [] 9 "t1").1
      = .error ⟨401, "Invalid email or password"⟩
    ∧ (login ⟨"bob@x.com", "wrong"⟩
        [⟨"u1", "Bob", "bob@x.com", "patient", some (hash_password "secret"), some true, 0, 0⟩]
        [] 9 "t2").1
      = .error ⟨401, "Invalid email or password"⟩
    ∧ (login ⟨"nobody@x.com", "secret"⟩
        [⟨"u1", "Bob", "bob@x.com", "patient", some (hash_password "secret"), some true, 0, 0⟩]
        [] 9 "t1").1
      = (login ⟨"bob@x.com", "wrong"⟩
        [⟨"u1", "Bob", "bob@x.com", "patient", some (hash_password "secret"), some true, 0, 0⟩]
        [] 9 "t2").1 :=
  c4_login_error_indistinguishable ⟨"nobody@x.com", "secret"⟩ ⟨"bob@x.com", "wrong"⟩
    [⟨"u1", "Bob", "bob@x.com", "patient", some (hash_password "secret"), some true, 0, 0⟩]
    [] 9 "t1" "t2"
    ⟨"u1", "Bob", "bob@x.com", "patient", some (hash_password "secret"), some true, 0, 0⟩
    (by decide) (by decide) (by decide)

/-- C3: once a presented token parses and is found in the store, an
expiry strictly in the past makes resolution fail with the Token-expired
error for every identity store whatsoever: the expiry check runs before
any identity lookup, so the outcome is independent of the identity
collection's contents. -/
theorem c3_expired_token_independent (a s t : String) (tokens : List TokenDoc) (now : Nat)
    (tok : TokenDoc) (e : Nat)
    (hs : pySplit a = [s, t]) (hb : pyLower s = "bearer")
    (hf : findOne tokens (fun d => d.token == t) = some tok)
    (he : tok.expires_at = some e) (hlt : e < now) :
    ∀ users : List UserAuthDoc,
      get_user_from_token (some a) tokens users now = .error ⟨401, "Token expired"⟩ := by
  intro users
  have ha : a ≠ "" := by
    intro h
    rw [h] at hs
    simp [pySplit, pySplitAux] at hs
  simp [get_user_from_token, ha, hs, hb, hf, he, hlt]

/-- C3 witness: an expired token resolves to Token-expired on a concrete
store, e.g. with an empty identity collection. -/
theorem c3_expired_token_independent_witness :
    get_user_from_token (some "Bearer t9") [⟨"t9", "u7", "doctor", some 50, 1⟩] [] 51
      = .error ⟨401, "Token expired"⟩ :=
  c3_expired_token_independent "Bearer t9" "Bearer" "t9" [⟨"t9", "u7", "doctor", some 50, 1⟩]
    51 ⟨"t9", "u7", "doctor", some 50, 1⟩ 50 (by decide) (by decide) (by decide) rfl
    (by decide) []

/-- C1 (amended): for a presented token that parses and is found in the
store, resolution fails with the Token-expired error exactly when the
stored expiry is set and is strictly before the current time; in
particular, at the instant the current time equals the expiry the token
still passes the expiry check. -/
theorem c1_expiry_strictly_before (a s t : String) (tokens : List TokenDoc)
    (users : List UserAuthDoc) (now : Nat) (tok : TokenDoc)
    (hs : pySplit a = [s, t]) (hb : pyLower s = "bearer")
    (hf : findOne tokens (fun d => d.token == t) = some tok) :
    (get_user_from_token (some a) tokens users now = .error ⟨401, "Token expired"⟩
      ↔ ∃ e, tok.expires_at = some e ∧ e < now) := by
  have ha : a ≠ "" := by
    intro h
    rw [h] at hs
    simp [pySplit, pySplitAux] at hs
  simp only [get_user_from_token, if_neg ha, hs]
  have hb2 : ¬ (pyLower s ≠ "bearer") := by simp [hb]
  simp only [if_neg hb2, hf]
  cases he : tok.expires_at with
  | none =>
    simp only [he]
    constructor
    · intro h
      cases hu : findOne users (fun u => u.mongoId == tok.user_id) <;> simp [hu] at h
    · rintro ⟨e, he2, _⟩
      exact Option.noConfusion he2
  | some e =>
    simp only [he]
    by_cases hlt : e < now
    · simp [hlt]
    · simp only [hlt, decide_eq_true_eq, if_neg, decide_eq_false_iff_not, not_false_iff]
      constructor
      · intro h
        cases hu : findOne users (fun u => u.mongoId == tok.user_id) <;> simp [hu, hlt] at h
      · rintro ⟨e2, he2, hlt2⟩
        cases he2
        exact absurd hlt2 hlt

/-- C1 (amended) witness: with expiry 100 and current time 100 the
resolver does not report Token-expired, and with current time 101 it
does. -/
theorem c1_expiry_strictly_before_witness :
    (get_user_from_token (some "Bearer t1") [⟨"t1", "u1", "admin", some 100, 0⟩] [] 100
        = .error ⟨401, "Token expired"⟩
      ↔ ∃ e, (⟨"t1", "u1", "admin", some 100, 0⟩ : TokenDoc).expires_at = some e ∧ e < 100) :=
  c1_expiry_strictly_before "Bearer t1" "Bearer" "t1" [⟨"t1", "u1", "admin", some 100, 0⟩]
    [] 100 ⟨"t1", "u1", "admin", some 100, 0⟩ (by decide) (by decide) (by decide)

/-- After a successful parse of a well-formed bearer credential, the
resolver's behavior depends only on the token and identity lookups. -/
theorem get_user_post_parse (a s t : String) (tokens : List TokenDoc)
    (users : List UserAuthDoc) (now : Nat)
    (hp : pySplit a = [s, t]) (hb : pyLower s = "bearer") :
    get_user_from_token (some a) tokens users now =
      match findOne tokens (fun d => d.token == t) with
      | none => .error ⟨401, "Invalid token"⟩
      | some tok =>
        if (match tok.expires_at with | some e => decide (e < now) | none => false) then
          .error ⟨401, "Token expired"⟩
        else
          match findOne users (fun u => u.mongoId == tok.user_id) with
          | none => .error ⟨401, "User not found for token"⟩
          | some user =>
            .ok ⟨user.mongoId, user.name, user.email, user.role, user.is_active.getD true⟩ := by
  have ha : a ≠ "" := by
    intro h
    rw [h] at hp
    simp [pySplit, pySplitAux] at hp
  have hb2 : ¬ (pyLower s ≠ "bearer") := by simp [hb]
  simp only [get_user_from_token, if_neg ha, hp, if_neg hb2]

/-- C8: credential parsing in the resolver.  An absent credential (the
header missing, or empty and hence falsy) fails with the
Missing-credential error; a present credential that does not split into
exactly two whitespace-separated parts with a case-insensitively
"Bearer" first part fails with the Malformed-credential error; and for
every well-formed bearer credential, whatever the scheme's letter case,
parsing never fails — the second part is taken as the token string and
the outcome is decided by the token lookup and later stages. -/
theorem c8_credential_parsing (tokens : List TokenDoc) (users : List UserAuthDoc) (now : Nat) :
    get_user_from_token none tokens users now = .error ⟨401, "Missing Authorization header"⟩
    ∧ get_user_from_token (some "") tokens users now
        = .error ⟨401, "Missing Authorization header"⟩
    ∧ (∀ a : String, a ≠ "" →
        (∀ s t, pySplit a = [s, t] → pyLower s ≠ "bearer") →
        get_user_from_token (some a) tokens users now
          = .error ⟨401, "Invalid Authorization header"⟩)
    ∧ (∀ a s t, pySplit a = [s, t] → pyLower s = "bearer" →
        (findOne tokens (fun d => d.token == t) = none →
          get_user_from_token (some a) tokens users now = .error ⟨401, "Invalid token"⟩)
        ∧ get_user_from_token (some a) tokens users now
            ≠ .error ⟨401, "Missing Authorization header"⟩
        ∧ get_user_from_token (some a) tokens users now
            ≠ .error ⟨401, "Invalid Authorization header"⟩) := by
  refine ⟨rfl, rfl, ?_, ?_⟩
  · intro a ha hbad
    simp only [get_user_from_token, if_neg ha]
    cases hp : pySplit a with
    | nil => simp [hp]
    | cons s rest =>
      cases rest with
      | nil => simp [hp]
      | cons t rest2 =>
        cases rest2 with
        | nil =>
          have h := hbad s t hp
          simp [hp, h]
        | cons u rest3 => simp [hp]
  · intro a s t hp hb
    have hpost := get_user_post_parse a s t tokens users now hp hb
    refine ⟨fun hnone => by rw [hpost, hnone], ?_, ?_⟩
    · rw [hpost]
      cases hf2 : findOne tokens (fun d => d.token == t) with
      | none => simp
      | some tok =>
        cases hex : (match tok.expires_at with | some e => decide (e < now) | none => false) with
        | true => simp [hex]
        | false =>
          cases hu : findOne users (fun u => u.mongoId == tok.user_id) <;> simp [hex, hu]
    · rw [hpost]
      cases hf2 : findOne tokens (fun d => d.token == t) with
      | none => simp
      | some tok =>
        cases hex : (match tok.expires_at with | some e => decide (e < now) | none => false) with
        | true => simp [hex]
        | false =>
          cases hu : findOne users (fun u => u.mongoId == tok.user_id) <;> simp [hex, hu]

/-- C8 witness: a credential with an unknown scheme is rejected as
malformed on a concrete store. -/
theorem c8_credential_parsing_witness :
    get_user_from_token (some "Token x") [] [] 0
      = .error ⟨401, "Invalid Authorization header"⟩ :=
  (c8_credential_parsing [] [] 0).2.2.1 "Token x" (by decide)
    (fun s t hst => by
      rw [(by decide : pySplit "Token x" = ["Token", "x"])] at hst
      simp only [List.cons.injEq, and_true] at hst
      obtain ⟨h1, h2⟩ := hst
      subst h1
      decide)

/-- Every stored identity's email is already in lowercase form, as
`signup` writes it. -/
def lowercaseEmails (users : List UserAuthDoc) : Prop :=
  ∀ u ∈ users, pyLower u.email = u.email

/-- No two stored identities share an email. -/
def uniqueEmails (users : List UserAuthDoc) : Prop :=
  users.Pairwise (fun a b => a.email ≠ b.email)

/-- C6: signup preserves email uniqueness.  If some stored identity
already carries the lowercase form of the requested email (whatever
letter case the request uses), signup fails with the Duplicate-email
error and writes neither an identity nor a token; and signup preserves
the invariant that stored emails are lowercase and pairwise distinct, so
after any sequence of signups there is exactly one identity record per
lowercase-normalized email. -/
theorem c6_signup_email_unique (payload : SignupRequest) (users : List UserAuthDoc)
    (tokens : List TokenDoc) (now : Nat) (newId newTok : String) :
    ((∃ u ∈ users, u.email = pyLower payload.email) →
      signup payload users tokens now newId newTok
        = (.error ⟨400, "Email already registered"⟩, users, tokens))
    ∧ (lowercaseEmails users → uniqueEmails users →
        lowercaseEmails (signup payload users tokens now newId newTok).2.1
        ∧ uniqueEmails (signup payload users tokens now newId newTok).2.1) := by
  constructor
  · rintro ⟨u, hu, he⟩
    cases hf : findOne users (fun d => d.email == pyLower payload.email) with
    | none =>
      exfalso
      have := List.find?_eq_none.mp hf u hu
      rw [he] at this
      simp at this
    | some v => simp [signup, hf]
  · intro hlc huniq
    cases hf : findOne users (fun d => d.email == pyLower payload.email) with
    | some v =>
      simp only [signup, hf]
      exact ⟨hlc, huniq⟩
    | none =>
      have hnotin : ∀ u ∈ users, u.email ≠ pyLower payload.email := by
        intro u hu heq
        have := List.find?_eq_none.mp hf u hu
        rw [heq] at this
        simp at this
      simp only [signup, hf]
      constructor
      · intro u hu
        rcases List.mem_append.mp hu with h | h
        · exact hlc u h
        · rcases List.mem_singleton.mp h with rfl
          exact pyLower_idem payload.email
      · unfold uniqueEmails
        rw [List.pairwise_append]
        refine ⟨huniq, List.pairwise_singleton _ _, ?_⟩
        intro u hu v hv
        rcases List.mem_singleton.mp hv with rfl
        exact hnotin u hu

/-- C6 witness: a second signup whose email lowercases to an existing
identity's email fails with Duplicate-email and changes nothing. -/
theorem c6_signup_email_unique_witness :
    signup ⟨"Bo", "A@x.com", "pw", "patient"⟩
        [⟨"u1", "Al", "a@x.com", "admin", none, none, 0, 0⟩] [] 0 "id2" "tk2"
      = (.error ⟨400, "Email already registered"⟩,
          [⟨"u1", "Al", "a@x.com", "admin", none, none, 0, 0⟩], []) :=
  (c6_signup_email_unique ⟨"Bo", "A@x.com", "pw", "patient"⟩
      [⟨"u1", "Al", "a@x.com", "admin", none, none, 0, 0⟩] [] 0 "id2" "tk2").1
    ⟨⟨"u1", "Al", "a@x.com", "admin", none, none, 0, 0⟩, by decide, by decide⟩

theorem findOne_append_none {α : Type} (l1 l2 : List α) (p : α → Bool)
    (h : findOne l1 p = none) : findOne (l1 ++ l2) p = findOne l2 p := by
  unfold findOne at h ⊢
  rw [List.find?_append, h, Option.none_or]

/-- C9 (implicit): the public signup accepts a caller-chosen role
"admin": with a fresh email it succeeds, issues a session token whose
role snapshot is "admin", and the resulting bearer token resolves (while
unexpired) to an identity that passes the admin access gate — an
anonymous caller can self-provision an admin identity. -/
theorem c9_anonymous_admin_signup (payload : SignupRequest) (users : List UserAuthDoc)
    (tokens : List TokenDoc) (now : Nat) (newId newTok : String) (now2 : Nat)
    (hrole : payload.role = "admin")
    (hfresh : findOne users (fun u => u.email == pyLower payload.email) = none)
    (htok : ∀ d ∈ tokens, d.token ≠ newTok)
    (hid : ∀ u ∈ users, u.mongoId ≠ newId)
    (hne : newTok ≠ "") (hws : ∀ c ∈ newTok.data, isPyWs c = false)
    (hexp : ¬ (now + 604800 < now2)) :
    (signup payload users tokens now newId newTok).1
      = .ok ⟨newTok, "admin", payload.name, payload.email⟩
    ∧ (∃ d ∈ (signup payload users tokens now newId newTok).2.2,
        d.token = newTok ∧ d.role = "admin")
    ∧ require_roles ["admin"]
        (get_user_from_token (some ("Bearer " ++ newTok))
          (signup payload users tokens now newId newTok).2.2
          (signup payload users tokens now newId newTok).2.1 now2)
      = .ok ⟨newId, payload.name, pyLower payload.email, "admin", true⟩ := by
  simp only [signup, hfresh, create_token]
  refine ⟨by rw [hrole], ?_, ?_⟩
  · exact ⟨⟨newTok, newId, payload.role, some (now + 604800), now⟩,
      List.mem_append_right _ (List.mem_singleton.mpr rfl), rfl, hrole⟩
  · rw [get_user_post_parse ("Bearer " ++ newTok) "Bearer" newTok _ _ now2
      (pySplit_bearer newTok hne hws) (by decide)]
    have hnone1 : findOne tokens (fun d => d.token == newTok) = none :=
      List.find?_eq_none.mpr (fun d hd => by simp [htok d hd])
    rw [findOne_append_none _ _ _ hnone1]
    have hone1 : findOne [(⟨newTok, newId, payload.role, some (now + 604800), now⟩ : TokenDoc)]
        (fun d => d.token == newTok) = some ⟨newTok, newId, payload.role, some (now + 604800), now⟩ := by
      simp [findOne]
    rw [hone1]
    simp only [decide_eq_false hexp, Bool.false_eq_true, if_false]
    have hnone2 : findOne users (fun u => u.mongoId == newId) = none :=
      List.find?_eq_none.mpr (fun u hu => by simp [hid u hu])
    rw [findOne_append_none _ _ _ hnone2]
    have hone2 : findOne [(⟨newId, payload.name, pyLower payload.email, payload.role,
        some (hash_password payload.password), some true, now, now⟩ : UserAuthDoc)]
        (fun u => u.mongoId == newId) = some ⟨newId, payload.name, pyLower payload.email,
          payload.role, some (hash_password payload.password), some true, now, now⟩ := by
      simp [findOne]
    rw [hone2]
    simp [require_roles, hrole]

/-- C9 witness: a concrete anonymous signup with role "admin" on empty
stores yields a token that passes the admin gate. -/
theorem c9_anonymous_admin_signup_witness :
    (signup ⟨"Eve", "eve@x.com", "pw", "admin"⟩ [] [] 0 "id1" "tok1").1
      = .ok ⟨"tok1", "admin", "Eve", "eve@x.com"⟩
    ∧ (∃ d ∈ (signup ⟨"Eve", "eve@x.com", "pw", "admin"⟩ [] [] 0 "id1" "tok1").2.2,
        d.token = "tok1" ∧ d.role = "admin")
    ∧ require_roles ["admin"]
        (get_user_from_token (some ("Bearer " ++ "tok1"))
          (signup ⟨"Eve", "eve@x.com", "pw", "admin"⟩ [] [] 0 "id1" "tok1").2.2
          (signup ⟨"Eve", "eve@x.com", "pw", "admin"⟩ [] [] 0 "id1" "tok1").2.1 3)
      = .ok ⟨"id1", "Eve", pyLower "eve@x.com", "admin", true⟩ :=
  c9_anonymous_admin_signup ⟨"Eve", "eve@x.com", "pw", "admin"⟩ [] [] 0 "id1" "tok1" 3
    rfl (by decide) (by simp) (by simp) (by decide) (by decide) (by decide)
